import Mathlib

/-!
Shallow embedding of the readiness-analysis engine of the klauern/skills
repository: the two ticket analyzers in
`migrating/jira-pointing-grooming/scripts/analyze_readiness.py` (general
profile, class `ReadinessAnalyzer`) and
`migrating/jira-pointing-grooming/scripts/analyze_readiness_fsec.py`
(team-specific profile, class `FSECReadinessAnalyzer`).

The analyzers are pure functions of one ticket snapshot once the Jira
fetch is done; the embedding starts from the extracted snapshot fields
(`analyze` lines after the `issue` lookup).  Python strings are modelled
as Lean `String`; the Python text operations used by the analyzers
(substring test `in`, `str.lower`, `str.strip`, `len`, and the handful
of regular expressions) are modelled for the ASCII texts the analyzers
work over.  Scores are Python floats that only ever hold integer values,
so they are modelled as `Int`.
-/

/-! ## Text primitives: models of Python string operations -/

/-- ASCII model of Python `str.lower` on one character. -/
def lowerC (c : Char) : Char :=
  if 65 ≤ c.toNat ∧ c.toNat ≤ 90 then Char.ofNat (c.toNat + 32) else c

/-- ASCII model of Python `str.lower`. -/
def pyLower (s : String) : String := String.mk (s.data.map lowerC)

/-- Python regex word character `\w` for ASCII text: `[a-zA-Z0-9_]`. -/
def isWordC (c : Char) : Bool :=
  (97 ≤ c.toNat && c.toNat ≤ 122) || (65 ≤ c.toNat && c.toNat ≤ 90) ||
    (48 ≤ c.toNat && c.toNat ≤ 57) || c == '_'

/-- ASCII uppercase letter, the regex class `[A-Z]`. -/
def isUpperC (c : Char) : Bool := 65 ≤ c.toNat && c.toNat ≤ 90

/-- ASCII digit, the regex class `\d` for ASCII text. -/
def isDigitC (c : Char) : Bool := 48 ≤ c.toNat && c.toNat ≤ 57

/-- Python regex whitespace `\s` for ASCII text: space, tab, newline,
carriage return, form feed, vertical tab. -/
def isPySpace (c : Char) : Bool :=
  c == ' ' || c == '\t' || c == '\n' || c == '\r' ||
    c == Char.ofNat 11 || c == Char.ofNat 12

/-- Model of Python `str.strip()` (ASCII whitespace). -/
def pyStrip (s : String) : String :=
  String.mk (((s.data.dropWhile isPySpace).reverse.dropWhile isPySpace).reverse)

/-- Exact (case-sensitive) list-prefix test. -/
def isPrefixC : List Char → List Char → Bool
  | [], _ => true
  | _ :: _, [] => false
  | a :: as, b :: bs => a == b && isPrefixC as bs

/-- Case-insensitive list-prefix test (Python `re.IGNORECASE`, ASCII). -/
def isPrefixIC : List Char → List Char → Bool
  | [], _ => true
  | _ :: _, [] => false
  | a :: as, b :: bs => lowerC a == lowerC b && isPrefixIC as bs

/-- Substring occurrence on character lists. -/
def containsSubList (needle : List Char) : List Char → Bool
  | [] => needle.isEmpty
  | c :: rest => isPrefixC needle (c :: rest) || containsSubList needle rest

/-- Model of Python `sub in s` for strings. -/
def containsStr (s sub : String) : Bool := containsSubList sub.data s.data

/-- True when the list is empty or starts with a non-word character:
a `\b` word boundary to the right of a word character. -/
def nonWordHead : List Char → Bool
  | [] => true
  | c :: _ => !isWordC c

/-- True when there is no previous character or it is a non-word
character: a `\b` word boundary to the left of a word character. -/
def nonWordOpt : Option Char → Bool
  | none => true
  | some c => !isWordC c

/-- Does `\b[A-Z]+-\d+\b` match at the head of the list?  The greedy
runs are exact here: backtracking inside `[A-Z]+` or `\d+` cannot help,
since a shorter run leaves a word character where a non-word character
is required. -/
def ticketKeyAt : List Char → Bool
  | [] => false
  | c :: rest =>
    isUpperC c &&
      (match (c :: rest).dropWhile isUpperC with
       | '-' :: rest2 =>
         (match rest2 with
          | d :: _ => isDigitC d && nonWordHead (rest2.dropWhile isDigitC)
          | [] => false)
       | _ => false)

/-- Scan for `\b[A-Z]+-\d+\b`, tracking the previous character for the
left word boundary. -/
def scanTicketKey : Option Char → List Char → Bool
  | _, [] => false
  | prev, c :: rest =>
    (nonWordOpt prev && ticketKeyAt (c :: rest)) || scanTicketKey (some c) rest

/-- Model of Python `re.search(r'\b[A-Z]+-\d+\b', s)` being truthy
(also of `re.findall` of the same pattern being non-empty). -/
def containsTicketRef (s : String) : Bool := scanTicketKey none s.data

/-- Case-insensitive `\bw\b` match at the head of the list, for a
pattern word `w` that starts and ends with a letter (true of every word
alternative used by the analyzers). -/
def wordAtIC (w : List Char) (l : List Char) : Bool :=
  isPrefixIC w l && nonWordHead (l.drop w.length)

/-- Scan for a case-insensitive boundary-delimited word. -/
def scanWordIC (w : List Char) : Option Char → List Char → Bool
  | _, [] => false
  | prev, c :: rest =>
    (nonWordOpt prev && wordAtIC w (c :: rest)) || scanWordIC w (some c) rest

/-- Model of Python `re.search(r'\bw\b', s, re.IGNORECASE)` being
truthy, for an alternation word `w` with letters at both ends. -/
def containsWordIC (s : String) (w : String) : Bool := scanWordIC w.data none s.data

/-- First boundary-delimited occurrence of a word; returns the suffix
after the consumed word.  Used to chain `\bgiven\b.*\bwhen\b.*\bthen\b`
(with `re.DOTALL`, so the gaps may span newlines). -/
def findWordB (w : List Char) : Option Char → List Char → Option (List Char)
  | _, [] => none
  | prev, c :: rest =>
    if nonWordOpt prev && wordAtIC w (c :: rest) then some ((c :: rest).drop w.length)
    else findWordB w (some c) rest

/-- Model of `re.search(r'\bgiven\b.*\bwhen\b.*\bthen\b', s, re.DOTALL)`
being truthy.  Taking the first occurrence at each stage is complete:
any witnessing triple of occurrences leaves the later words intact
after cutting at an earlier first occurrence. -/
def hasGWT (l : List Char) : Bool :=
  match findWordB "given".data none l with
  | none => false
  | some r1 =>
    match findWordB "when".data (some 'n') r1 with
    | none => false
    | some r2 => (findWordB "then".data (some 'n') r2).isSome

/-- The character class `[-*‚Ä¢]` of the acceptance-criteria bullet
regexes.  The source file holds the raw bytes E2 80 9A, C3 84, C2 A2
between `*` and `]`, i.e. the three characters U+201A, U+00C4, U+00A2
(a mis-encoded bullet), and those are the literal class members. -/
def isBullet (c : Char) : Bool :=
  c == '-' || c == '*' || c == Char.ofNat 0x201A || c == Char.ofNat 0xC4 ||
    c == Char.ofNat 0xA2

/-- Model of `re.search(r'[-*‚Ä¢]\s*\[', s)` being truthy: a bullet
character followed, after whitespace, by `[`.  Greedy `\s*` is exact:
`[` is not a whitespace character. -/
def hasBulletBracket : List Char → Bool
  | [] => false
  | c :: rest =>
    (isBullet c &&
      (match rest.dropWhile isPySpace with
       | '[' :: _ => true
       | _ => false)) || hasBulletBracket rest

/-- Does `\s*[-*‚Ä¢]\s+` match from this position (a line start)? -/
def bulletLineFrom (l : List Char) : Bool :=
  match l.dropWhile isPySpace with
  | c :: d :: _ => isBullet c && isPySpace d
  | _ => false

/-- Scan for line starts after a newline. -/
def goLines : List Char → Bool
  | [] => false
  | c :: rest => (c == '\n' && bulletLineFrom rest) || goLines rest

/-- Model of `re.search(r'^\s*[-*‚Ä¢]\s+', s, re.MULTILINE)` being
truthy: at the string start or after some newline, whitespace, then a
bullet, then at least one whitespace character. -/
def hasBulletLine (l : List Char) : Bool := bulletLineFrom l || goLines l

/-- Number of leading non-newline characters (what `.{0,50}` may
consume without `re.DOTALL`), capped later at 50. -/
def nonNLRun (l : List Char) : Nat := (l.takeWhile (fun c => !(c == '\n'))).length

/-- The text of the match of `.{0,50}mk.{0,50}` that starts at the head
of `l` and lets the leading `.{0,50}` consume exactly `n` characters:
those `n` characters, the matched marker text (original case), then the
greedy trailing run of up to 50 non-newline characters. -/
def mkCtxMatch (mk l : List Char) (n : Nat) : List Char :=
  let rest := l.drop n
  let tail := rest.drop mk.length
  l.take n ++ rest.take mk.length ++ tail.take (min 50 (nonNLRun tail))

/-- Greedy search for the leading-run length of `.{0,50}mk.{0,50}` at a
fixed start: try `n` characters for the leading `.{0,50}`, largest
first, exactly as the regex engine backtracks. -/
def tryCtxN (mk l : List Char) : Nat → Option (List Char)
  | 0 => if isPrefixIC mk l then some (mkCtxMatch mk l 0) else none
  | n + 1 =>
    if isPrefixIC mk (l.drop (n + 1)) then some (mkCtxMatch mk l (n + 1))
    else tryCtxN mk l n

/-- Match of `.{0,50}mk.{0,50}` (IGNORECASE, no DOTALL) anchored at the
head of `l`. -/
def tryCtxAt (mk l : List Char) : Option (List Char) :=
  tryCtxN mk l (min 50 (nonNLRun l))

/-- First match of `re.findall(rf'.{0,50}mk.{0,50}', text, re.IGNORECASE)`:
leftmost start position, greedy leading run. -/
def findCtx (mk : List Char) : List Char → Option (List Char)
  | [] => tryCtxAt mk []
  | c :: rest =>
    match tryCtxAt mk (c :: rest) with
    | some m => some m
    | none => findCtx mk rest

/-- The analyzers wrap each extracted example as `f'"{match.strip()}"'`. -/
def quoteCtx (m : List Char) : String := "\"" ++ pyStrip (String.mk m) ++ "\""

/-! ## Data model -/

/-- A detected gap (`Gap` dataclass, identical in both analyzer files). -/
structure Gap where
  category : String
  severity : String
  title : String
  description : String
  questions : List String
  actions : List String
deriving DecidableEq, Repr

/-- The ticket snapshot the analyzers read, as extracted from the Jira
issue payload: `description` and the comment bodies already normalized
to plain (possibly empty) strings, `issuelinks` kept only as the list
the truthiness test `not issue_links` inspects. -/
structure Ticket where
  key : String
  summary : String
  description : String
  issuetype : String
  status : String
  comments : List String
  issuelinks : List String
deriving DecidableEq, Repr

namespace ReadinessAnalyzer

/-- `ReadinessReport` dataclass of `analyze_readiness.py`. -/
structure ReadinessReport where
  issue_key : String
  summary : String
  issue_type : String
  status : String
  requirements_score : Int
  technical_score : Int
  testing_score : Int
  context_score : Int
  total_score : Int
  gaps : List Gap
  strengths : List String
  ready_for_pointing : Bool
deriving DecidableEq, Repr

def VAGUE_WORDS : List String :=
  ["maybe", "probably", "might", "could", "possibly",
   "something like", "similar to", "kind of", "etc", "and so on"]

def INCOMPLETE_MARKERS : List String := ["TBD", "TODO", "???", "unclear", "..."]

def AC_KEYWORDS : List String :=
  ["acceptance criteria", "AC:", "definition of done",
   "success criteria", "given", "when", "then"]

def TECH_KEYWORDS : List String :=
  ["api", "endpoint", "database", "table", "schema",
   "component", "service", "architecture"]

def TEST_KEYWORDS : List String :=
  ["test", "happy path", "edge case", "error handling", "scenario", "verify"]

def SECURITY_KEYWORDS : List String :=
  ["password", "token", "auth", "permission", "pii", "gdpr", "encryption", "security"]

/-- Alternatives of the dependency regex
`\b(depends on|blocked by|requires|needs|after)\b`. -/
def DEP_PHRASES : List String := ["depends on", "blocked by", "requires", "needs", "after"]

/-- Alternatives of the scope-creep regex
`\b(also|additionally|we should also|another thing|plus)\b`. -/
def ADDITIVE_PHRASES : List String :=
  ["also", "additionally", "we should also", "another thing", "plus"]

/-- `_check_acceptance_criteria` (lines 146-180). -/
def check_acceptance_criteria (description issue_type : String) : List Gap :=
  let desc_lower := pyLower description
  let has_ac_section := AC_KEYWORDS.any (fun kw => containsStr desc_lower kw)
  let has_gwt_format := hasGWT desc_lower.data
  let has_criteria_list := hasBulletBracket description.data || hasBulletLine description.data
  if !(has_ac_section || has_gwt_format || has_criteria_list) then
    if !(["bug", "incident", "hotfix"].contains (pyLower issue_type)) then
      [{ category := "requirements", severity := "HIGH",
         title := "Missing Acceptance Criteria",
         description := "No clear definition of \"done\". What specific, testable conditions must be met?",
         questions :=
           ["What are the success criteria?",
            "How will we know this is working correctly?",
            "What edge cases must be handled?"],
         actions :=
           ["Schedule 15-min session with PO to define AC",
            "Use format: Given [context], When [action], Then [outcome]",
            "Document at least 2-3 criteria for features"] }]
    else []
  else []

/-- `_check_vague_language` (lines 182-220). -/
def check_vague_language (text : String) : List Gap :=
  let text_lower := pyLower text
  let found_vague := VAGUE_WORDS.filterMap (fun w =>
    if containsStr text_lower w then (findCtx w.data text.data).map quoteCtx else none)
  let found_incomplete := INCOMPLETE_MARKERS.filter (fun m => containsStr text m)
  if found_vague.isEmpty && found_incomplete.isEmpty then []
  else
    let examples := if found_vague.isEmpty then found_incomplete.take 3 else found_vague.take 3
    [{ category := "requirements", severity := "HIGH",
       title := "Vague or Ambiguous Requirements",
       description := "Found ambiguous language: " ++ String.intercalate ", " examples,
       questions :=
         ["What are the specific requirements?",
          "Can we remove uncertainty and be more precise?",
          "What decisions need to be made?"],
       actions :=
         ["Convert vague statements to specific questions",
          "Assign questions to stakeholders for answers",
          "Update ticket with specific requirements"] }]

/-- `_check_technical_context` (lines 222-255). -/
def check_technical_context (description issue_type : String) : List Gap :=
  if ["bug", "incident", "hotfix"].contains (pyLower issue_type) then []
  else
    let desc_lower := pyLower description
    let has_tech_keywords := TECH_KEYWORDS.any (fun kw => containsStr desc_lower kw)
    let has_tech_section := containsStr desc_lower "technical" &&
      (containsStr desc_lower "approach" || containsStr desc_lower "design" ||
        containsStr desc_lower "notes")
    if !(has_tech_keywords || has_tech_section) then
      [{ category := "technical", severity := "MEDIUM",
         title := "No Technical Context",
         description := "No discussion of implementation approach.",
         questions :=
           ["Which components/services are affected?",
            "Are new API endpoints needed?",
            "Are database schema changes required?",
            "What is the high-level technical approach?"],
         actions :=
           ["Tech lead to sketch approach in ticket",
            "Identify 2-3 possible approaches if unclear",
            "Note any major technical decisions needed",
            "List affected components and services"] }]
    else []

/-- `_check_dependencies` (lines 257-291); the issue payload enters only
through the truthiness of `fields.get('issuelinks', [])`. -/
def check_dependencies (text : String) (issuelinks : List String) : List Gap :=
  let has_dep_mention := DEP_PHRASES.any (fun p => containsWordIC text p)
  let has_ticket_refs := containsTicketRef text
  if (has_dep_mention || has_ticket_refs) && issuelinks.isEmpty then
    [{ category := "technical", severity := "MEDIUM",
       title := "Missing Dependencies",
       description := "Description mentions dependencies but no linked tickets.",
       questions :=
         ["Which tickets must be completed first?",
          "What are the blocking dependencies?",
          "Are there external service dependencies?"],
       actions :=
         ["Link to dependent tickets",
          "Add \"blocked by\" relationships if applicable",
          "Document any external service dependencies",
          "Clarify which dependencies are hard blockers"] }]
  else []

/-- `_check_test_scenarios` (lines 293-323). -/
def check_test_scenarios (text issue_type : String) : List Gap :=
  let text_lower := pyLower text
  let has_test_keywords := TEST_KEYWORDS.any (fun kw => containsStr text_lower kw)
  let has_test_section := containsStr text_lower "test" &&
    (containsStr text_lower "scenario" || containsStr text_lower "case" ||
      containsStr text_lower "plan")
  if !(has_test_keywords || has_test_section) then
    if !(["spike", "research"].contains (pyLower issue_type)) then
      [{ category := "testing", severity := "LOW",
         title := "No Test Scenarios",
         description := "No discussion of how to verify this works.",
         questions :=
           ["What is the happy path scenario?",
            "What edge cases need testing?",
            "What error conditions should be tested?",
            "What test data is needed?"],
         actions :=
           ["Document at least happy path + 2 edge cases",
            "Specify error handling requirements",
            "Note any special test data needs"] }]
    else []
  else []

/-- `_check_scope_creep` (lines 325-355). -/
def check_scope_creep (comments : List String) : List Gap :=
  if comments.length < 5 then []
  else
    let comment_additions :=
      comments.countP (fun c => ADDITIVE_PHRASES.any (fun p => containsWordIC c p))
    if 3 ≤ comment_additions then
      [{ category := "requirements", severity := "MEDIUM",
         title := "Scope Growing in Comments",
         description := "Found " ++ toString comment_additions ++
           " comments adding requirements. May need splitting.",
         questions :=
           ["What is the current scope?",
            "Should this be split into multiple tickets?",
            "What is the minimum viable implementation?"],
         actions :=
           ["Review all comments for scope changes",
            "Update description to match current understanding",
            "Consider splitting into multiple tickets",
            "Get PO to confirm final scope"] }]
    else []

/-- `_check_security_context` (lines 357-385). -/
def check_security_context (text : String) : List Gap :=
  let text_lower := pyLower text
  let has_security_keywords := SECURITY_KEYWORDS.any (fun kw => containsStr text_lower kw)
  let has_security_section :=
    containsStr text_lower "security" || containsStr text_lower "compliance"
  if has_security_keywords && !has_security_section then
    [{ category := "context", severity := "HIGH",
       title := "Security Review Needed",
       description := "Ticket involves sensitive data but lacks security context.",
       questions :=
         ["What are the security requirements?",
          "Are there compliance considerations (GDPR, SOC2)?",
          "How is sensitive data protected?",
          "What audit logging is needed?"],
       actions :=
         ["Schedule security review",
          "Document security requirements",
          "Add security-specific acceptance criteria",
          "Flag for security team review"] }]
  else []

/-- `_identify_strengths` (lines 387-408). -/
def identify_strengths (description all_text : String) (issuelinks : List String) :
    List String :=
  (if AC_KEYWORDS.any (fun kw => containsStr (pyLower description) kw) then
    ["Has acceptance criteria"] else []) ++
  (if TEST_KEYWORDS.any (fun kw => containsStr (pyLower all_text) kw) then
    ["Test scenarios discussed"] else []) ++
  (if TECH_KEYWORDS.any (fun kw => containsStr (pyLower description) kw) then
    ["Technical context provided"] else []) ++
  (if !issuelinks.isEmpty then ["Dependencies linked"] else []) ++
  (if 200 < description.length then ["Detailed description"] else [])

/-- `_calculate_requirements_score` (lines 410-421): deductive over the
requirements category, ceiling 70, HIGH costs 25, MEDIUM costs 10. -/
def calculate_requirements_score (gaps : List Gap) : Int :=
  let req_gaps := gaps.filter (fun g => g.category == "requirements")
  let high_severity := req_gaps.countP (fun g => g.severity == "HIGH")
  let medium_severity := req_gaps.countP (fun g => g.severity == "MEDIUM")
  max 0 (70 - 25 * (high_severity : Int) - 10 * (medium_severity : Int))

/-- `_calculate_technical_score` (lines 423-433). -/
def calculate_technical_score (gaps : List Gap) : Int :=
  let tech_gaps := gaps.filter (fun g => g.category == "technical")
  let high_severity := tech_gaps.countP (fun g => g.severity == "HIGH")
  let medium_severity := tech_gaps.countP (fun g => g.severity == "MEDIUM")
  max 0 (20 - 15 * (high_severity : Int) - 8 * (medium_severity : Int))

/-- `_calculate_testing_score` (lines 435-441): all-or-nothing on the
presence of testing-category gaps. -/
def calculate_testing_score (gaps : List Gap) : Int :=
  let test_gaps := gaps.filter (fun g => g.category == "testing")
  if test_gaps.isEmpty then 5 else 0

/-- `_calculate_context_score` (lines 443-451). -/
def calculate_context_score (gaps : List Gap) : Int :=
  let ctx_gaps := gaps.filter (fun g => g.category == "context")
  let high_severity := ctx_gaps.countP (fun g => g.severity == "HIGH")
  max 0 (5 - 5 * (high_severity : Int))

/-- `analyze` line 106: `f"{summary}\n{description}\n" + "\n".join(comments)`. -/
def all_text (t : Ticket) : String :=
  t.summary ++ "\n" ++ t.description ++ "\n" ++ String.intercalate "\n" t.comments

/-- Gap collection of `analyze` (lines 109-116), in source order. -/
def detect_gaps (t : Ticket) : List Gap :=
  check_acceptance_criteria t.description t.issuetype ++
  check_vague_language (all_text t) ++
  check_technical_context t.description t.issuetype ++
  check_dependencies (all_text t) t.issuelinks ++
  check_test_scenarios (all_text t) t.issuetype ++
  check_scope_creep t.comments ++
  check_security_context (all_text t)

/-- `analyze` (lines 89-144) from the extracted snapshot onward. -/
def analyze (t : Ticket) : ReadinessReport :=
  let gaps := detect_gaps t
  let strengths := identify_strengths t.description (all_text t) t.issuelinks
  let req_score := calculate_requirements_score gaps
  let tech_score := calculate_technical_score gaps
  let test_score := calculate_testing_score gaps
  let ctx_score := calculate_context_score gaps
  let total_score := req_score + tech_score + test_score + ctx_score
  let ready := decide (75 ≤ total_score ∧ 50 ≤ req_score)
  { issue_key := t.key, summary := t.summary, issue_type := t.issuetype,
    status := t.status,
    requirements_score := req_score, technical_score := tech_score,
    testing_score := test_score, context_score := ctx_score,
    total_score := total_score, gaps := gaps, strengths := strengths,
    ready_for_pointing := ready }

end ReadinessAnalyzer

namespace FSECReadinessAnalyzer

/-- `ReadinessReport` dataclass of `analyze_readiness_fsec.py`
(reweighted categories and an extra `mode` field). -/
structure ReadinessReport where
  issue_key : String
  summary : String
  issue_type : String
  status : String
  requirements_score : Int
  technical_score : Int
  context_score : Int
  testing_score : Int
  total_score : Int
  gaps : List Gap
  strengths : List String
  ready_for_pointing : Bool
  mode : String
deriving DecidableEq, Repr

def CRITICAL_VAGUE : List String := ["TBD", "TODO", "???", "unclear", "figure it out"]

def PROBLEM_INDICATORS : List String :=
  ["problem", "issue", "currently", "need to", "should", "request", "broken", "failing"]

def AWS_KEYWORDS : List String :=
  ["account", "lambda", "s3", "iam", "api", "policy", "kms",
   "ec2", "vpc", "scp", "role", "cloudformation", "terraform"]

def IMPLEMENTATION_KEYWORDS : List String :=
  ["create", "update", "modify", "deploy", "configure",
   "implement", "add", "remove", "migrate", "move"]

def SECURITY_KEYWORDS : List String :=
  ["iam", "policy", "role", "permission", "auth", "encryption",
   "kms", "security", "compliance"]

def TEST_KEYWORDS : List String := ["test", "verify", "validate", "check"]

/-- `_check_problem_statement` (lines 148-166). -/
def check_problem_statement (description : String) : List Gap :=
  let desc_lower := pyLower description
  let has_problem := PROBLEM_INDICATORS.any (fun w => containsStr desc_lower w)
  let has_substance := 50 < (pyStrip description).length
  if !(has_problem || has_substance) then
    [{ category := "requirements", severity := "HIGH",
       title := "Missing Problem Statement",
       description := "No clear description of what needs to change or why.",
       questions := ["What problem are we solving?", "Who requested this?"],
       actions :=
         ["Add context about what needs to change",
          "Link to Slack thread or related ticket"] }]
  else []

/-- `_check_critical_ambiguity` (lines 168-190).  The membership test
`marker in text` is case-sensitive; the context extraction that follows
runs the IGNORECASE regex on the same text. -/
def check_critical_ambiguity (text : String) : List Gap :=
  let found_critical := CRITICAL_VAGUE.filterMap (fun mk =>
    if containsStr text mk then (findCtx mk.data text.data).map quoteCtx else none)
  if found_critical.isEmpty then []
  else
    [{ category := "requirements", severity := "HIGH",
       title := "Critical Ambiguity",
       description := "Found blockers: " ++ String.intercalate ", " (found_critical.take 2),
       questions := ["What needs to be decided before we can estimate?"],
       actions :=
         ["Convert TBD/TODO into specific questions",
          "Assign owners to open questions"] }]

/-- `_check_aws_context` (lines 192-214). -/
def check_aws_context (description issue_type : String) : List Gap :=
  if ["spike", "research"].contains (pyLower issue_type) then []
  else
    let desc_lower := pyLower description
    let has_aws := AWS_KEYWORDS.any (fun kw => containsStr desc_lower kw)
    if !has_aws && description.length < 100 then
      [{ category := "technical", severity := "MEDIUM",
         title := "Limited AWS Context",
         description := "Minimal technical details about affected systems.",
         questions :=
           ["Which AWS accounts/services are affected?",
            "What infrastructure components need changes?"],
         actions :=
           ["List affected accounts, services, or modules",
            "Add links to relevant code or AWS console"] }]
    else []

/-- `_check_implementation_clarity` (lines 216-235). -/
def check_implementation_clarity (description : String) : List Gap :=
  let desc_lower := pyLower description
  let has_action := IMPLEMENTATION_KEYWORDS.any (fun kw => containsStr desc_lower kw)
  let has_substance := 100 < description.length
  if !has_action && !has_substance then
    [{ category := "technical", severity := "MEDIUM",
       title := "Unclear Implementation",
       description := "No clear description of what to build or change.",
       questions :=
         ["What specifically needs to be created/modified?",
          "What is the high-level approach?"],
       actions := ["Add implementation details", "Describe the solution approach"] }]
  else []

/-- `_check_references` (lines 237-258). -/
def check_references (description : String) : List Gap :=
  let has_github := containsStr description "github.com"
  let has_slack := containsStr description "slack.com"
  let has_jira := containsTicketRef description
  if !(has_github || has_slack || has_jira) && description.length < 100 then
    [{ category := "context", severity := "LOW",
       title := "No References",
       description := "Could benefit from links to code, Slack, or related tickets.",
       questions := [],
       actions :=
         ["Add link to relevant GitHub repo/file",
          "Link to Slack discussion if applicable"] }]
  else []

/-- `_check_security_context` (lines 260-280). -/
def check_security_context (text : String) : List Gap :=
  let text_lower := pyLower text
  let has_security_keywords := SECURITY_KEYWORDS.any (fun kw => containsStr text_lower kw)
  let has_security_section :=
    containsStr text_lower "security" || containsStr text_lower "iam policy"
  if has_security_keywords && !has_security_section && text.length < 300 then
    [{ category := "context", severity := "MEDIUM",
       title := "Security Implications",
       description := "Involves IAM/policies but lacks security discussion.",
       questions :=
         ["What are the security implications?",
          "What permissions are being granted?"],
       actions := ["Add brief security context", "Note if security review needed"] }]
  else []

/-- `_identify_strengths` (lines 282-313). -/
def identify_strengths (description all_text : String) (issuelinks : List String) :
    List String :=
  (if PROBLEM_INDICATORS.any (fun w => containsStr (pyLower description) w) then
    ["Clear problem or request"] else []) ++
  (if AWS_KEYWORDS.any (fun kw => containsStr (pyLower description) kw) then
    ["AWS infrastructure context"] else []) ++
  (if IMPLEMENTATION_KEYWORDS.any (fun kw => containsStr (pyLower description) kw) then
    ["Clear implementation approach"] else []) ++
  (if containsStr description "github.com" then ["Code references"] else []) ++
  (if containsStr description "slack.com" then ["Slack thread linked"] else []) ++
  (if !issuelinks.isEmpty then ["Related tickets linked"] else []) ++
  (if 200 < description.length then ["Detailed description"] else [])

/-- `_calculate_requirements_score` (lines 315-327): deductive, ceiling
40, HIGH costs 15, MEDIUM costs 5 (the `description` argument is unused
in the source as well). -/
def calculate_requirements_score (description : String) (gaps : List Gap) : Int :=
  let req_gaps := gaps.filter (fun g => g.category == "requirements")
  let high_severity := req_gaps.countP (fun g => g.severity == "HIGH")
  let medium_severity := req_gaps.countP (fun g => g.severity == "MEDIUM")
  max 0 (40 - 15 * (high_severity : Int) - 5 * (medium_severity : Int))

/-- `_calculate_technical_score` (lines 329-356): additive indicators
(+15 AWS keyword, +15 implementation keyword, +10 references), minus 5
per MEDIUM technical gap, clamped to `[0, 40]` (the `issue` argument is
unused in the source body; its link list is kept for the signature). -/
def calculate_technical_score (description : String) (issuelinks : List String)
    (gaps : List Gap) : Int :=
  let desc_lower := pyLower description
  let score : Int := 0
  let score := if AWS_KEYWORDS.any (fun kw => containsStr desc_lower kw) then
    score + 15 else score
  let score := if IMPLEMENTATION_KEYWORDS.any (fun kw => containsStr desc_lower kw) then
    score + 15 else score
  let has_refs := containsStr description "github.com" ||
    containsStr description "slack.com" || containsTicketRef description
  let score := if has_refs then score + 10 else score
  let tech_gaps := gaps.filter (fun g => g.category == "technical")
  let medium_severity := tech_gaps.countP (fun g => g.severity == "MEDIUM")
  let score := score - 5 * (medium_severity : Int)
  min 40 (max 0 score)

/-- `_calculate_context_score` (lines 358-371): deductive, ceiling 15,
HIGH costs 10, MEDIUM costs 5, LOW costs 2. -/
def calculate_context_score (description : String) (gaps : List Gap) : Int :=
  let ctx_gaps := gaps.filter (fun g => g.category == "context")
  let high_severity := ctx_gaps.countP (fun g => g.severity == "HIGH")
  let medium_severity := ctx_gaps.countP (fun g => g.severity == "MEDIUM")
  let low_severity := ctx_gaps.countP (fun g => g.severity == "LOW")
  max 0 (15 - 10 * (high_severity : Int) - 5 * (medium_severity : Int) -
    2 * (low_severity : Int))

/-- `_calculate_testing_score` (lines 373-385): 5 when a test keyword
occurs in the combined text (the extra `or 'verify' in text_lower` is
subsumed, `verify` being a test keyword), else 3; the gap list is never
consulted. -/
def calculate_testing_score (text : String) : Int :=
  let text_lower := pyLower text
  let has_test_mention := TEST_KEYWORDS.any (fun kw => containsStr text_lower kw)
  if has_test_mention || containsStr text_lower "verify" then 5 else 3

/-- `analyze` line 109: same combined-text formula as the general profile. -/
def all_text (t : Ticket) : String :=
  t.summary ++ "\n" ++ t.description ++ "\n" ++ String.intercalate "\n" t.comments

/-- Gap collection of `analyze` (lines 112-118), in source order. -/
def detect_gaps (t : Ticket) : List Gap :=
  check_problem_statement t.description ++
  check_critical_ambiguity (all_text t) ++
  check_aws_context t.description t.issuetype ++
  check_implementation_clarity t.description ++
  check_references t.description ++
  check_security_context (all_text t)

/-- `analyze` (lines 92-146) from the extracted snapshot onward. -/
def analyze (t : Ticket) : ReadinessReport :=
  let gaps := detect_gaps t
  let strengths := identify_strengths t.description (all_text t) t.issuelinks
  let req_score := calculate_requirements_score t.description gaps
  let tech_score := calculate_technical_score t.description t.issuelinks gaps
  let ctx_score := calculate_context_score t.description gaps
  let test_score := calculate_testing_score (all_text t)
  let total_score := req_score + tech_score + ctx_score + test_score
  let ready := decide (60 ≤ total_score ∧ 25 ≤ req_score)
  { issue_key := t.key, summary := t.summary, issue_type := t.issuetype,
    status := t.status,
    requirements_score := req_score, technical_score := tech_score,
    context_score := ctx_score, testing_score := test_score,
    total_score := total_score, gaps := gaps, strengths := strengths,
    ready_for_pointing := ready, mode := "FSEC" }

end FSECReadinessAnalyzer

/-! ## Projection lemmas for the two report builders -/

namespace ReadinessAnalyzer

theorem analyze_gaps (t : Ticket) : (analyze t).gaps = detect_gaps t := rfl

theorem analyze_requirements_score (t : Ticket) :
    (analyze t).requirements_score = calculate_requirements_score (detect_gaps t) := rfl

theorem analyze_technical_score (t : Ticket) :
    (analyze t).technical_score = calculate_technical_score (detect_gaps t) := rfl

theorem analyze_testing_score (t : Ticket) :
    (analyze t).testing_score = calculate_testing_score (detect_gaps t) := rfl

theorem analyze_context_score (t : Ticket) :
    (analyze t).context_score = calculate_context_score (detect_gaps t) := rfl

theorem analyze_total_score (t : Ticket) :
    (analyze t).total_score =
      calculate_requirements_score (detect_gaps t) +
      calculate_technical_score (detect_gaps t) +
      calculate_testing_score (detect_gaps t) +
      calculate_context_score (detect_gaps t) := rfl

end ReadinessAnalyzer

namespace FSECReadinessAnalyzer

theorem fsec_analyze_gaps (t : Ticket) : (analyze t).gaps = detect_gaps t := rfl

theorem fsec_analyze_requirements_score (t : Ticket) :
    (analyze t).requirements_score =
      calculate_requirements_score t.description (detect_gaps t) := rfl

theorem fsec_analyze_technical_score (t : Ticket) :
    (analyze t).technical_score =
      calculate_technical_score t.description t.issuelinks (detect_gaps t) := rfl

theorem fsec_analyze_context_score (t : Ticket) :
    (analyze t).context_score = calculate_context_score t.description (detect_gaps t) := rfl

theorem fsec_analyze_testing_score (t : Ticket) :
    (analyze t).testing_score = calculate_testing_score (all_text t) := rfl

theorem fsec_analyze_total_score (t : Ticket) :
    (analyze t).total_score =
      calculate_requirements_score t.description (detect_gaps t) +
      calculate_technical_score t.description t.issuelinks (detect_gaps t) +
      calculate_context_score t.description (detect_gaps t) +
      calculate_testing_score (all_text t) := rfl

end FSECReadinessAnalyzer

/-! ## Bounds of the scoring engine -/

theorem RA_requirements_bounds (gaps : List Gap) :
    0 ≤ ReadinessAnalyzer.calculate_requirements_score gaps ∧
      ReadinessAnalyzer.calculate_requirements_score gaps ≤ 70 := by
  simp only [ReadinessAnalyzer.calculate_requirements_score]
  omega

theorem RA_technical_bounds (gaps : List Gap) :
    0 ≤ ReadinessAnalyzer.calculate_technical_score gaps ∧
      ReadinessAnalyzer.calculate_technical_score gaps ≤ 20 := by
  simp only [ReadinessAnalyzer.calculate_technical_score]
  omega

theorem RA_testing_bounds (gaps : List Gap) :
    0 ≤ ReadinessAnalyzer.calculate_testing_score gaps ∧
      ReadinessAnalyzer.calculate_testing_score gaps ≤ 5 := by
  simp only [ReadinessAnalyzer.calculate_testing_score]
  split <;> omega

theorem RA_context_bounds (gaps : List Gap) :
    0 ≤ ReadinessAnalyzer.calculate_context_score gaps ∧
      ReadinessAnalyzer.calculate_context_score gaps ≤ 5 := by
  simp only [ReadinessAnalyzer.calculate_context_score]
  omega

theorem FSEC_requirements_bounds (d : String) (gaps : List Gap) :
    0 ≤ FSECReadinessAnalyzer.calculate_requirements_score d gaps ∧
      FSECReadinessAnalyzer.calculate_requirements_score d gaps ≤ 40 := by
  simp only [FSECReadinessAnalyzer.calculate_requirements_score]
  omega

theorem FSEC_technical_bounds (d : String) (links : List String) (gaps : List Gap) :
    0 ≤ FSECReadinessAnalyzer.calculate_technical_score d links gaps ∧
      FSECReadinessAnalyzer.calculate_technical_score d links gaps ≤ 40 := by
  simp only [FSECReadinessAnalyzer.calculate_technical_score]
  split <;> split <;> split <;> omega

theorem FSEC_context_bounds (d : String) (gaps : List Gap) :
    0 ≤ FSECReadinessAnalyzer.calculate_context_score d gaps ∧
      FSECReadinessAnalyzer.calculate_context_score d gaps ≤ 15 := by
  simp only [FSECReadinessAnalyzer.calculate_context_score]
  omega

theorem FSEC_testing_bounds (text : String) :
    0 ≤ FSECReadinessAnalyzer.calculate_testing_score text ∧
      FSECReadinessAnalyzer.calculate_testing_score text ≤ 5 := by
  simp only [FSECReadinessAnalyzer.calculate_testing_score]
  split <;> omega

/-! ## Claim theorems -/

/-- Claim C1: for every ticket snapshot and both profiles, the
ready-for-estimation verdict equals exactly
`total_score ≥ threshold ∧ requirements_score ≥ floor`, with
threshold 75 / floor 50 for the general profile and threshold 60 /
floor 25 for the FSEC profile; nothing else enters the verdict. -/
theorem C1_verdict_formula : ∀ t : Ticket,
    (ReadinessAnalyzer.analyze t).ready_for_pointing =
      decide (75 ≤ (ReadinessAnalyzer.analyze t).total_score ∧
        50 ≤ (ReadinessAnalyzer.analyze t).requirements_score) ∧
    (FSECReadinessAnalyzer.analyze t).ready_for_pointing =
      decide (60 ≤ (FSECReadinessAnalyzer.analyze t).total_score ∧
        25 ≤ (FSECReadinessAnalyzer.analyze t).requirements_score) :=
  fun _ => ⟨rfl, rfl⟩

/-- Claim C2: every category score is within `[0, category_max]`
(70/20/5/5 for the general profile, 40/40/15/5 for FSEC) for every gap
list the scoring engine may receive, and for every ticket the total
score is the sum of the four category scores and lies in `[0, 100]`. -/
theorem C2_score_bounds :
    (∀ gaps : List Gap,
      (0 ≤ ReadinessAnalyzer.calculate_requirements_score gaps ∧
        ReadinessAnalyzer.calculate_requirements_score gaps ≤ 70) ∧
      (0 ≤ ReadinessAnalyzer.calculate_technical_score gaps ∧
        ReadinessAnalyzer.calculate_technical_score gaps ≤ 20) ∧
      (0 ≤ ReadinessAnalyzer.calculate_testing_score gaps ∧
        ReadinessAnalyzer.calculate_testing_score gaps ≤ 5) ∧
      (0 ≤ ReadinessAnalyzer.calculate_context_score gaps ∧
        ReadinessAnalyzer.calculate_context_score gaps ≤ 5)) ∧
    (∀ (d : String) (links : List String) (gaps : List Gap),
      (0 ≤ FSECReadinessAnalyzer.calculate_requirements_score d gaps ∧
        FSECReadinessAnalyzer.calculate_requirements_score d gaps ≤ 40) ∧
      (0 ≤ FSECReadinessAnalyzer.calculate_technical_score d links gaps ∧
        FSECReadinessAnalyzer.calculate_technical_score d links gaps ≤ 40) ∧
      (0 ≤ FSECReadinessAnalyzer.calculate_context_score d gaps ∧
        FSECReadinessAnalyzer.calculate_context_score d gaps ≤ 15)) ∧
    (∀ text : String,
      0 ≤ FSECReadinessAnalyzer.calculate_testing_score text ∧
        FSECReadinessAnalyzer.calculate_testing_score text ≤ 5) ∧
    (∀ t : Ticket,
      (ReadinessAnalyzer.analyze t).total_score =
        (ReadinessAnalyzer.analyze t).requirements_score +
        (ReadinessAnalyzer.analyze t).technical_score +
        (ReadinessAnalyzer.analyze t).testing_score +
        (ReadinessAnalyzer.analyze t).context_score ∧
      0 ≤ (ReadinessAnalyzer.analyze t).total_score ∧
      (ReadinessAnalyzer.analyze t).total_score ≤ 100 ∧
      (FSECReadinessAnalyzer.analyze t).total_score =
        (FSECReadinessAnalyzer.analyze t).requirements_score +
        (FSECReadinessAnalyzer.analyze t).technical_score +
        (FSECReadinessAnalyzer.analyze t).context_score +
        (FSECReadinessAnalyzer.analyze t).testing_score ∧
      0 ≤ (FSECReadinessAnalyzer.analyze t).total_score ∧
      (FSECReadinessAnalyzer.analyze t).total_score ≤ 100) := by
  refine ⟨fun gaps => ⟨RA_requirements_bounds gaps, RA_technical_bounds gaps,
      RA_testing_bounds gaps, RA_context_bounds gaps⟩,
    fun d links gaps => ⟨FSEC_requirements_bounds d gaps,
      FSEC_technical_bounds d links gaps, FSEC_context_bounds d gaps⟩,
    FSEC_testing_bounds,
    fun t => ⟨rfl, ?_, ?_, rfl, ?_, ?_⟩⟩
  · have h1 := RA_requirements_bounds (ReadinessAnalyzer.detect_gaps t)
    have h2 := RA_technical_bounds (ReadinessAnalyzer.detect_gaps t)
    have h3 := RA_testing_bounds (ReadinessAnalyzer.detect_gaps t)
    have h4 := RA_context_bounds (ReadinessAnalyzer.detect_gaps t)
    rw [ReadinessAnalyzer.analyze_total_score]
    omega
  · have h1 := RA_requirements_bounds (ReadinessAnalyzer.detect_gaps t)
    have h2 := RA_technical_bounds (ReadinessAnalyzer.detect_gaps t)
    have h3 := RA_testing_bounds (ReadinessAnalyzer.detect_gaps t)
    have h4 := RA_context_bounds (ReadinessAnalyzer.detect_gaps t)
    rw [ReadinessAnalyzer.analyze_total_score]
    omega
  · have h1 := FSEC_requirements_bounds t.description (FSECReadinessAnalyzer.detect_gaps t)
    have h2 := FSEC_technical_bounds t.description t.issuelinks
      (FSECReadinessAnalyzer.detect_gaps t)
    have h3 := FSEC_context_bounds t.description (FSECReadinessAnalyzer.detect_gaps t)
    have h4 := FSEC_testing_bounds (FSECReadinessAnalyzer.all_text t)
    rw [FSECReadinessAnalyzer.fsec_analyze_total_score]
    omega
  · have h1 := FSEC_requirements_bounds t.description (FSECReadinessAnalyzer.detect_gaps t)
    have h2 := FSEC_technical_bounds t.description t.issuelinks
      (FSECReadinessAnalyzer.detect_gaps t)
    have h3 := FSEC_context_bounds t.description (FSECReadinessAnalyzer.detect_gaps t)
    have h4 := FSEC_testing_bounds (FSECReadinessAnalyzer.all_text t)
    rw [FSECReadinessAnalyzer.fsec_analyze_total_score]
    omega

/-! ## Concrete ticket snapshots used by the closed theorems -/

/-- Empty Story ticket: empty description, no comments, no links. -/
def tStory : Ticket :=
  { key := "GEN-1", summary := "", description := "", issuetype := "Story",
    status := "Open", comments := [], issuelinks := [] }

/-- Empty Task ticket for the FSEC profile. -/
def tTask : Ticket :=
  { key := "FSEC-1", summary := "", description := "", issuetype := "Task",
    status := "Open", comments := [], issuelinks := [] }

/-- Ticket whose description consists of the single word
`authentication`, which contains the acceptance-criteria keyword `then`
as a raw substring. -/
def tAuth : Ticket :=
  { key := "GEN-2", summary := "", description := "authentication",
    issuetype := "Story", status := "Open", comments := [], issuelinks := [] }

/-- Ticket on which no detector of either profile fires: it carries
acceptance-criteria, technical, test and security-section language, a
problem statement, AWS and implementation keywords, references, and a
linked issue. -/
def tRich : Ticket :=
  { key := "GEN-3", summary := "",
    description := "Given the problem when we test then update the api endpoint via terraform. See PROJ-123 and github.com. Acceptance criteria: verify security policy with the security team.",
    issuetype := "Story", status := "Open", comments := [], issuelinks := ["PROJ-1"] }

/-- Ticket with a description over 100 characters long carrying no AWS
keyword, no implementation keyword and no reference, so the FSEC
additive technical indicators are all absent while no technical
detector fires. -/
def tPlain : Ticket :=
  { key := "FSEC-2", summary := "", description := String.mk (List.replicate 101 'q'),
    issuetype := "Task", status := "Open", comments := [], issuelinks := [] }

/-- Ticket whose description contains the literal marker `TBD`. -/
def tTBD : Ticket :=
  { key := "GEN-4", summary := "", description := "TBD", issuetype := "Story",
    status := "Open", comments := [], issuelinks := [] }

/-! ## Claims C3, C4, C6, C8, C9 -/

/-- Claim C3 counterexample: on the empty FSEC ticket the analysis
produces zero testing-category gaps, yet the FSEC testing score is 3,
not its category maximum 5 — the FSEC testing category does not behave
deductively. -/
theorem C3_counterexample :
    (FSECReadinessAnalyzer.analyze tTask).gaps.filter
        (fun g => g.category == "testing") = [] ∧
    (FSECReadinessAnalyzer.analyze tTask).testing_score = 3 := by
  decide

/-- Claim C3 (amended): a deductive category with zero gaps scores its
maximum for all four general-profile categories and for the FSEC
requirements and context categories; the FSEC testing score is computed
from the ticket text alone and is excluded. -/
theorem C3_deductive_zero_gaps : ∀ t : Ticket,
    ((ReadinessAnalyzer.analyze t).gaps.filter
        (fun g => g.category == "requirements") = [] →
      (ReadinessAnalyzer.analyze t).requirements_score = 70) ∧
    ((ReadinessAnalyzer.analyze t).gaps.filter
        (fun g => g.category == "technical") = [] →
      (ReadinessAnalyzer.analyze t).technical_score = 20) ∧
    ((ReadinessAnalyzer.analyze t).gaps.filter
        (fun g => g.category == "testing") = [] →
      (ReadinessAnalyzer.analyze t).testing_score = 5) ∧
    ((ReadinessAnalyzer.analyze t).gaps.filter
        (fun g => g.category == "context") = [] →
      (ReadinessAnalyzer.analyze t).context_score = 5) ∧
    ((FSECReadinessAnalyzer.analyze t).gaps.filter
        (fun g => g.category == "requirements") = [] →
      (FSECReadinessAnalyzer.analyze t).requirements_score = 40) ∧
    ((FSECReadinessAnalyzer.analyze t).gaps.filter
        (fun g => g.category == "context") = [] →
      (FSECReadinessAnalyzer.analyze t).context_score = 15) := by
  intro t
  refine ⟨fun h => ?_, fun h => ?_, fun h => ?_, fun h => ?_, fun h => ?_, fun h => ?_⟩
  · rw [ReadinessAnalyzer.analyze_gaps] at h
    rw [ReadinessAnalyzer.analyze_requirements_score]
    simp only [ReadinessAnalyzer.calculate_requirements_score, h, List.countP_nil]
    omega
  · rw [ReadinessAnalyzer.analyze_gaps] at h
    rw [ReadinessAnalyzer.analyze_technical_score]
    simp only [ReadinessAnalyzer.calculate_technical_score, h, List.countP_nil]
    omega
  · rw [ReadinessAnalyzer.analyze_gaps] at h
    rw [ReadinessAnalyzer.analyze_testing_score]
    simp only [ReadinessAnalyzer.calculate_testing_score, h, List.isEmpty_nil]
    rfl
  · rw [ReadinessAnalyzer.analyze_gaps] at h
    rw [ReadinessAnalyzer.analyze_context_score]
    simp only [ReadinessAnalyzer.calculate_context_score, h, List.countP_nil]
    omega
  · rw [FSECReadinessAnalyzer.fsec_analyze_gaps] at h
    rw [FSECReadinessAnalyzer.fsec_analyze_requirements_score]
    simp only [FSECReadinessAnalyzer.calculate_requirements_score, h, List.countP_nil]
    omega
  · rw [FSECReadinessAnalyzer.fsec_analyze_gaps] at h
    rw [FSECReadinessAnalyzer.fsec_analyze_context_score]
    simp only [FSECReadinessAnalyzer.calculate_context_score, h, List.countP_nil]
    omega

/-- Witness for C3: on `tRich` both profiles find no gap at all, and
each maxed category indeed reports its ceiling. -/
theorem C3_deductive_zero_gaps_witness :
    ((ReadinessAnalyzer.analyze tRich).gaps.filter
        (fun g => g.category == "requirements") = []) ∧
    ((ReadinessAnalyzer.analyze tRich).gaps.filter
        (fun g => g.category == "technical") = []) ∧
    ((ReadinessAnalyzer.analyze tRich).gaps.filter
        (fun g => g.category == "testing") = []) ∧
    ((ReadinessAnalyzer.analyze tRich).gaps.filter
        (fun g => g.category == "context") = []) ∧
    ((FSECReadinessAnalyzer.analyze tRich).gaps.filter
        (fun g => g.category == "requirements") = []) ∧
    ((FSECReadinessAnalyzer.analyze tRich).gaps.filter
        (fun g => g.category == "context") = []) ∧
    (ReadinessAnalyzer.analyze tRich).requirements_score = 70 ∧
    (ReadinessAnalyzer.analyze tRich).technical_score = 20 ∧
    (ReadinessAnalyzer.analyze tRich).testing_score = 5 ∧
    (ReadinessAnalyzer.analyze tRich).context_score = 5 ∧
    (FSECReadinessAnalyzer.analyze tRich).requirements_score = 40 ∧
    (FSECReadinessAnalyzer.analyze tRich).context_score = 15 :=
  ⟨by decide, by decide, by decide, by decide, by decide, by decide,
   (C3_deductive_zero_gaps tRich).1 (by decide),
   (C3_deductive_zero_gaps tRich).2.1 (by decide),
   (C3_deductive_zero_gaps tRich).2.2.1 (by decide),
   (C3_deductive_zero_gaps tRich).2.2.2.1 (by decide),
   (C3_deductive_zero_gaps tRich).2.2.2.2.1 (by decide),
   (C3_deductive_zero_gaps tRich).2.2.2.2.2 (by decide)⟩

/-- Gap carrying an unrecognized severity value. -/
def gapBadSeverity : Gap :=
  { category := "requirements", severity := "CRITICAL", title := "t",
    description := "d", questions := [], actions := [] }

/-- Gap carrying an unrecognized category value. -/
def gapBadCategory : Gap :=
  { category := "docs", severity := "HIGH", title := "t",
    description := "d", questions := [], actions := [] }

/-- Claim C4 counterexample: the scoring engine does not fail fast on
unrecognized severity or category values — it succeeds and silently
ignores them.  A requirements gap with severity `CRITICAL` deducts
nothing (the score stays at the no-gap value 70, resp. 40), and a gap
with category `docs` leaves every category score at its no-gap value in
both profiles. -/
theorem C4_counterexample :
    ReadinessAnalyzer.calculate_requirements_score [gapBadSeverity] = 70 ∧
    ReadinessAnalyzer.calculate_requirements_score [gapBadCategory] = 70 ∧
    ReadinessAnalyzer.calculate_technical_score [gapBadCategory] = 20 ∧
    ReadinessAnalyzer.calculate_testing_score [gapBadCategory] = 5 ∧
    ReadinessAnalyzer.calculate_context_score [gapBadCategory] = 5 ∧
    FSECReadinessAnalyzer.calculate_requirements_score "" [gapBadSeverity] = 40 ∧
    FSECReadinessAnalyzer.calculate_technical_score "" [] [gapBadCategory] =
      FSECReadinessAnalyzer.calculate_technical_score "" [] [] ∧
    FSECReadinessAnalyzer.calculate_context_score "" [gapBadCategory] = 15 := by
  decide

/-- Count of a severity inside a category filter is unchanged by a gap
whose severity test is false, whatever its category. -/
theorem countP_filter_cons_sev (g : Gap) (l : List Gap) (p q : Gap → Bool)
    (hq : q g = false) :
    ((g :: l).filter p).countP q = (l.filter p).countP q := by
  by_cases hp : p g
  · simp [List.filter_cons, hp, List.countP_cons, hq]
  · simp [List.filter_cons, hp]

theorem RA_req_ignores_sev (g : Gap) (gaps : List Gap)
    (hH : (g.severity == "HIGH") = false) (hM : (g.severity == "MEDIUM") = false) :
    ReadinessAnalyzer.calculate_requirements_score (g :: gaps) =
      ReadinessAnalyzer.calculate_requirements_score gaps := by
  simp only [ReadinessAnalyzer.calculate_requirements_score]
  rw [countP_filter_cons_sev g gaps (fun x => x.category == "requirements")
      (fun x => x.severity == "HIGH") hH,
    countP_filter_cons_sev g gaps (fun x => x.category == "requirements")
      (fun x => x.severity == "MEDIUM") hM]

theorem RA_tech_ignores_sev (g : Gap) (gaps : List Gap)
    (hH : (g.severity == "HIGH") = false) (hM : (g.severity == "MEDIUM") = false) :
    ReadinessAnalyzer.calculate_technical_score (g :: gaps) =
      ReadinessAnalyzer.calculate_technical_score gaps := by
  simp only [ReadinessAnalyzer.calculate_technical_score]
  rw [countP_filter_cons_sev g gaps (fun x => x.category == "technical")
      (fun x => x.severity == "HIGH") hH,
    countP_filter_cons_sev g gaps (fun x => x.category == "technical")
      (fun x => x.severity == "MEDIUM") hM]

theorem RA_ctx_ignores_sev (g : Gap) (gaps : List Gap)
    (hH : (g.severity == "HIGH") = false) :
    ReadinessAnalyzer.calculate_context_score (g :: gaps) =
      ReadinessAnalyzer.calculate_context_score gaps := by
  simp only [ReadinessAnalyzer.calculate_context_score]
  rw [countP_filter_cons_sev g gaps (fun x => x.category == "context")
      (fun x => x.severity == "HIGH") hH]

theorem FSEC_req_ignores_sev (d : String) (g : Gap) (gaps : List Gap)
    (hH : (g.severity == "HIGH") = false) (hM : (g.severity == "MEDIUM") = false) :
    FSECReadinessAnalyzer.calculate_requirements_score d (g :: gaps) =
      FSECReadinessAnalyzer.calculate_requirements_score d gaps := by
  simp only [FSECReadinessAnalyzer.calculate_requirements_score]
  rw [countP_filter_cons_sev g gaps (fun x => x.category == "requirements")
      (fun x => x.severity == "HIGH") hH,
    countP_filter_cons_sev g gaps (fun x => x.category == "requirements")
      (fun x => x.severity == "MEDIUM") hM]

theorem FSEC_tech_ignores_sev (d : String) (links : List String) (g : Gap)
    (gaps : List Gap) (hM : (g.severity == "MEDIUM") = false) :
    FSECReadinessAnalyzer.calculate_technical_score d links (g :: gaps) =
      FSECReadinessAnalyzer.calculate_technical_score d links gaps := by
  simp only [FSECReadinessAnalyzer.calculate_technical_score]
  rw [countP_filter_cons_sev g gaps (fun x => x.category == "technical")
      (fun x => x.severity == "MEDIUM") hM]

theorem FSEC_ctx_ignores_sev (d : String) (g : Gap) (gaps : List Gap)
    (hH : (g.severity == "HIGH") = false) (hM : (g.severity == "MEDIUM") = false)
    (hL : (g.severity == "LOW") = false) :
    FSECReadinessAnalyzer.calculate_context_score d (g :: gaps) =
      FSECReadinessAnalyzer.calculate_context_score d gaps := by
  simp only [FSECReadinessAnalyzer.calculate_context_score]
  rw [countP_filter_cons_sev g gaps (fun x => x.category == "context")
      (fun x => x.severity == "HIGH") hH,
    countP_filter_cons_sev g gaps (fun x => x.category == "context")
      (fun x => x.severity == "MEDIUM") hM,
    countP_filter_cons_sev g gaps (fun x => x.category == "context")
      (fun x => x.severity == "LOW") hL]

/-- Claim C4 (amended): the scoring engine never fails on an
unrecognized severity or category — such gaps are silently ignored.  A
gap with an unrecognized category leaves every category score of both
profiles unchanged, and a gap with an unrecognized severity leaves all
severity-weighted (deduction-applying) category scores unchanged. -/
theorem C4_silent_ignore :
    ∀ (g : Gap) (gaps : List Gap) (d : String) (links : List String),
    ((g.category == "requirements" || g.category == "technical" ||
      g.category == "testing" || g.category == "context") = false →
      ReadinessAnalyzer.calculate_requirements_score (g :: gaps) =
        ReadinessAnalyzer.calculate_requirements_score gaps ∧
      ReadinessAnalyzer.calculate_technical_score (g :: gaps) =
        ReadinessAnalyzer.calculate_technical_score gaps ∧
      ReadinessAnalyzer.calculate_testing_score (g :: gaps) =
        ReadinessAnalyzer.calculate_testing_score gaps ∧
      ReadinessAnalyzer.calculate_context_score (g :: gaps) =
        ReadinessAnalyzer.calculate_context_score gaps ∧
      FSECReadinessAnalyzer.calculate_requirements_score d (g :: gaps) =
        FSECReadinessAnalyzer.calculate_requirements_score d gaps ∧
      FSECReadinessAnalyzer.calculate_technical_score d links (g :: gaps) =
        FSECReadinessAnalyzer.calculate_technical_score d links gaps ∧
      FSECReadinessAnalyzer.calculate_context_score d (g :: gaps) =
        FSECReadinessAnalyzer.calculate_context_score d gaps) ∧
    ((g.severity == "HIGH" || g.severity == "MEDIUM" || g.severity == "LOW") = false →
      ReadinessAnalyzer.calculate_requirements_score (g :: gaps) =
        ReadinessAnalyzer.calculate_requirements_score gaps ∧
      ReadinessAnalyzer.calculate_technical_score (g :: gaps) =
        ReadinessAnalyzer.calculate_technical_score gaps ∧
      ReadinessAnalyzer.calculate_context_score (g :: gaps) =
        ReadinessAnalyzer.calculate_context_score gaps ∧
      FSECReadinessAnalyzer.calculate_requirements_score d (g :: gaps) =
        FSECReadinessAnalyzer.calculate_requirements_score d gaps ∧
      FSECReadinessAnalyzer.calculate_technical_score d links (g :: gaps) =
        FSECReadinessAnalyzer.calculate_technical_score d links gaps ∧
      FSECReadinessAnalyzer.calculate_context_score d (g :: gaps) =
        FSECReadinessAnalyzer.calculate_context_score d gaps) := by
  intro g gaps d links
  constructor
  · intro h
    simp only [Bool.or_eq_false_iff] at h
    obtain ⟨⟨⟨h1, h2⟩, h3⟩, h4⟩ := h
    refine ⟨?_, ?_, ?_, ?_, ?_, ?_, ?_⟩ <;>
      (simp only [ReadinessAnalyzer.calculate_requirements_score,
          ReadinessAnalyzer.calculate_technical_score,
          ReadinessAnalyzer.calculate_testing_score,
          ReadinessAnalyzer.calculate_context_score,
          FSECReadinessAnalyzer.calculate_requirements_score,
          FSECReadinessAnalyzer.calculate_technical_score,
          FSECReadinessAnalyzer.calculate_context_score,
          List.filter_cons, h1, h2, h3, h4]
       simp)
  · intro h
    simp only [Bool.or_eq_false_iff] at h
    obtain ⟨⟨hH, hM⟩, hL⟩ := h
    exact ⟨RA_req_ignores_sev g gaps hH hM, RA_tech_ignores_sev g gaps hH hM,
      RA_ctx_ignores_sev g gaps hH,
      FSEC_req_ignores_sev d g gaps hH hM,
      FSEC_tech_ignores_sev d links g gaps hM,
      FSEC_ctx_ignores_sev d g gaps hH hM hL⟩

/-- Gap with both an unrecognized category and an unrecognized severity,
for the C4 witness. -/
def gapC4 : Gap :=
  { category := "payload", severity := "WAT", title := "t",
    description := "d", questions := [], actions := [] }

/-- Witness for C4 (amended) at the concrete gap `gapC4` against the
empty gap list. -/
theorem C4_silent_ignore_witness :
    ((gapC4.category == "requirements" || gapC4.category == "technical" ||
      gapC4.category == "testing" || gapC4.category == "context") = false) ∧
    ((gapC4.severity == "HIGH" || gapC4.severity == "MEDIUM" ||
      gapC4.severity == "LOW") = false) ∧
    (ReadinessAnalyzer.calculate_requirements_score (gapC4 :: []) =
        ReadinessAnalyzer.calculate_requirements_score [] ∧
      ReadinessAnalyzer.calculate_technical_score (gapC4 :: []) =
        ReadinessAnalyzer.calculate_technical_score [] ∧
      ReadinessAnalyzer.calculate_testing_score (gapC4 :: []) =
        ReadinessAnalyzer.calculate_testing_score [] ∧
      ReadinessAnalyzer.calculate_context_score (gapC4 :: []) =
        ReadinessAnalyzer.calculate_context_score [] ∧
      FSECReadinessAnalyzer.calculate_requirements_score "" (gapC4 :: []) =
        FSECReadinessAnalyzer.calculate_requirements_score "" [] ∧
      FSECReadinessAnalyzer.calculate_technical_score "" [] (gapC4 :: []) =
        FSECReadinessAnalyzer.calculate_technical_score "" [] [] ∧
      FSECReadinessAnalyzer.calculate_context_score "" (gapC4 :: []) =
        FSECReadinessAnalyzer.calculate_context_score "" []) ∧
    (ReadinessAnalyzer.calculate_requirements_score (gapC4 :: []) =
        ReadinessAnalyzer.calculate_requirements_score [] ∧
      ReadinessAnalyzer.calculate_technical_score (gapC4 :: []) =
        ReadinessAnalyzer.calculate_technical_score [] ∧
      ReadinessAnalyzer.calculate_context_score (gapC4 :: []) =
        ReadinessAnalyzer.calculate_context_score [] ∧
      FSECReadinessAnalyzer.calculate_requirements_score "" (gapC4 :: []) =
        FSECReadinessAnalyzer.calculate_requirements_score "" [] ∧
      FSECReadinessAnalyzer.calculate_technical_score "" [] (gapC4 :: []) =
        FSECReadinessAnalyzer.calculate_technical_score "" [] [] ∧
      FSECReadinessAnalyzer.calculate_context_score "" (gapC4 :: []) =
        FSECReadinessAnalyzer.calculate_context_score "" []) :=
  ⟨by decide, by decide,
   (C4_silent_ignore gapC4 [] "" []).1 (by decide),
   (C4_silent_ignore gapC4 [] "" []).2 (by decide)⟩

/-- Claim C6: on a ticket with empty description and comments, the
general profile (type Story) emits the Missing Acceptance Criteria gap
and scores requirements 70 - 25 = 45; the FSEC profile (type Task)
emits the Missing Problem Statement gap, scores requirements
40 - 15 = 25 which still meets the floor (equality allowed), so its
verdict reduces to the total-score test against 60. -/
theorem C6_empty_ticket :
    (ReadinessAnalyzer.analyze tStory).gaps.countP
        (fun g => g.title == "Missing Acceptance Criteria" &&
          g.category == "requirements") = 1 ∧
    (ReadinessAnalyzer.analyze tStory).requirements_score = 45 ∧
    (FSECReadinessAnalyzer.analyze tTask).gaps.countP
        (fun g => g.title == "Missing Problem Statement" &&
          g.category == "requirements") = 1 ∧
    (FSECReadinessAnalyzer.analyze tTask).requirements_score = 25 ∧
    25 ≤ (FSECReadinessAnalyzer.analyze tTask).requirements_score ∧
    (FSECReadinessAnalyzer.analyze tTask).ready_for_pointing =
      decide (60 ≤ (FSECReadinessAnalyzer.analyze tTask).total_score) := by
  decide

/-- Claim C8: analysis is deterministic — it is a pure function of the
ticket snapshot, so equal snapshots yield equal reports (scores, gap
list and order, strengths, verdict) under each profile. -/
theorem C8_deterministic : ∀ t₁ t₂ : Ticket, t₁ = t₂ →
    ReadinessAnalyzer.analyze t₁ = ReadinessAnalyzer.analyze t₂ ∧
    FSECReadinessAnalyzer.analyze t₁ = FSECReadinessAnalyzer.analyze t₂ := by
  intro t₁ t₂ h
  subst h
  exact ⟨rfl, rfl⟩

/-- Witness for C8 at the concrete snapshot `tStory`. -/
theorem C8_deterministic_witness :
    tStory = tStory ∧
    (ReadinessAnalyzer.analyze tStory = ReadinessAnalyzer.analyze tStory ∧
      FSECReadinessAnalyzer.analyze tStory = FSECReadinessAnalyzer.analyze tStory) :=
  ⟨rfl, C8_deterministic tStory tStory rfl⟩

/-- Claim C9: keyword detection is raw substring matching — the lone
word `authentication` contains the acceptance-criteria keyword `then`,
so the acceptance-criteria check passes, no Missing Acceptance Criteria
gap is emitted, and the `Has acceptance criteria` strength is reported. -/
theorem C9_substring_keyword_match :
    containsStr (pyLower "authentication") "then" = true ∧
    ReadinessAnalyzer.check_acceptance_criteria "authentication" "Story" = [] ∧
    (ReadinessAnalyzer.analyze tAuth).gaps.all
      (fun g => g.title != "Missing Acceptance Criteria") = true ∧
    (ReadinessAnalyzer.analyze tAuth).strengths.contains "Has acceptance criteria" = true := by
  decide

/-! ## Substring lemmas used by the universally quantified claims -/

theorem isPrefixC_append (nd l m : List Char) (h : isPrefixC nd l = true) :
    isPrefixC nd (l ++ m) = true := by
  induction nd generalizing l with
  | nil => rfl
  | cons a as ih =>
    cases l with
    | nil => exact absurd h (by simp [isPrefixC])
    | cons b bs =>
      simp only [List.cons_append, isPrefixC, Bool.and_eq_true] at h ⊢
      exact ⟨h.1, ih bs h.2⟩

theorem containsSubList_append_right (nd m l : List Char)
    (h : containsSubList nd l = true) : containsSubList nd (m ++ l) = true := by
  induction m with
  | nil => simpa using h
  | cons c cs ih =>
    simp only [List.cons_append, containsSubList, Bool.or_eq_true]
    exact Or.inr ih

theorem containsSubList_append_left (nd l m : List Char)
    (h : containsSubList nd l = true) : containsSubList nd (l ++ m) = true := by
  induction l with
  | nil =>
    have hnd : nd = [] := by
      simpa [containsSubList, List.isEmpty_iff] using h
    subst hnd
    cases m with
    | nil => rfl
    | cons c cs => simp [containsSubList, isPrefixC]
  | cons c cs ih =>
    simp only [containsSubList, Bool.or_eq_true, List.cons_append] at h ⊢
    rcases h with h1 | h2
    · exact Or.inl (by simpa [List.cons_append] using isPrefixC_append nd (c :: cs) m h1)
    · exact Or.inr (ih h2)

theorem containsStr_append_left (a b sub : String) (h : containsStr a sub = true) :
    containsStr (a ++ b) sub = true := by
  have hd : (a ++ b).data = a.data ++ b.data := rfl
  unfold containsStr at h ⊢
  rw [hd]
  exact containsSubList_append_left _ _ _ h

theorem containsStr_append_right (a b sub : String) (h : containsStr b sub = true) :
    containsStr (a ++ b) sub = true := by
  have hd : (a ++ b).data = a.data ++ b.data := rfl
  unfold containsStr at h ⊢
  rw [hd]
  exact containsSubList_append_right _ _ _ h

/-- A substring of the description occurs in the combined analysis text. -/
theorem containsStr_all_text (t : Ticket) (sub : String)
    (h : containsStr t.description sub = true) :
    containsStr (ReadinessAnalyzer.all_text t) sub = true := by
  unfold ReadinessAnalyzer.all_text
  exact containsStr_append_left _ _ _ (containsStr_append_left _ _ _
    (containsStr_append_right _ _ _ h))

/-- Same fact for the FSEC combined text, which is the same formula. -/
theorem containsStr_all_text_fsec (t : Ticket) (sub : String)
    (h : containsStr t.description sub = true) :
    containsStr (FSECReadinessAnalyzer.all_text t) sub = true :=
  containsStr_all_text t sub h

theorem isPrefixIC_of_isPrefixC (nd l : List Char) (h : isPrefixC nd l = true) :
    isPrefixIC nd l = true := by
  induction nd generalizing l with
  | nil => rfl
  | cons a as ih =>
    cases l with
    | nil => exact absurd h (by simp [isPrefixC])
    | cons b bs =>
      simp only [isPrefixC, isPrefixIC, Bool.and_eq_true] at h ⊢
      have hab : a = b := by
        have := h.1
        simpa using this
      exact ⟨by rw [hab]; simp, ih bs h.2⟩

theorem tryCtxN_isSome (mk l : List Char) (n : Nat) (h : isPrefixIC mk l = true) :
    (tryCtxN mk l n).isSome = true := by
  induction n with
  | zero => simp [tryCtxN, h]
  | succ n ih =>
    simp only [tryCtxN]
    split
    · rfl
    · exact ih

theorem tryCtxAt_isSome (mk l : List Char) (h : isPrefixIC mk l = true) :
    (tryCtxAt mk l).isSome = true :=
  tryCtxN_isSome mk l _ h

theorem findCtx_isSome (mk l : List Char) (h : containsSubList mk l = true) :
    (findCtx mk l).isSome = true := by
  induction l with
  | nil =>
    have hmk : mk = [] := by simpa [containsSubList, List.isEmpty_iff] using h
    subst hmk
    decide
  | cons c cs ih =>
    simp only [containsSubList, Bool.or_eq_true] at h
    simp only [findCtx]
    cases ha : tryCtxAt mk (c :: cs) with
    | some m => rfl
    | none =>
      rcases h with h1 | h2
      · have := tryCtxAt_isSome mk (c :: cs)
          (isPrefixIC_of_isPrefixC mk (c :: cs) (by simpa using h1))
        rw [ha] at this
        exact absurd this (by simp)
      · exact ih h2

/-! ## Gap-emission lemmas for the ambiguity detectors -/

/-- When the text contains the literal marker `TBD`, the general
vague-language detector emits exactly one gap, a HIGH requirements gap
with the fixed title (its description text depends on the extracted
examples). -/
theorem check_vague_language_of_TBD (text : String)
    (h : containsStr text "TBD" = true) :
    ∃ d, ReadinessAnalyzer.check_vague_language text =
      [{ category := "requirements", severity := "HIGH",
         title := "Vague or Ambiguous Requirements", description := d,
         questions :=
           ["What are the specific requirements?",
            "Can we remove uncertainty and be more precise?",
            "What decisions need to be made?"],
         actions :=
           ["Convert vague statements to specific questions",
            "Assign questions to stakeholders for answers",
            "Update ticket with specific requirements"] }] := by
  have hmem : "TBD" ∈ ReadinessAnalyzer.INCOMPLETE_MARKERS.filter
      (fun m => containsStr text m) :=
    List.mem_filter.mpr ⟨by simp [ReadinessAnalyzer.INCOMPLETE_MARKERS], h⟩
  have hBf : (ReadinessAnalyzer.INCOMPLETE_MARKERS.filter
      (fun m => containsStr text m)).isEmpty = false := by
    rcases hx : ReadinessAnalyzer.INCOMPLETE_MARKERS.filter (fun m => containsStr text m) with
      _ | ⟨a, l⟩
    · rw [hx] at hmem
      cases hmem
    · rfl
  simp only [ReadinessAnalyzer.check_vague_language, hBf, Bool.and_false,
    Bool.false_eq_true, if_false]
  exact ⟨_, rfl⟩

/-- When the text contains the literal marker `TBD`, the FSEC critical
ambiguity detector emits exactly one gap, a HIGH requirements gap with
the fixed title. -/
theorem check_critical_ambiguity_of_TBD (text : String)
    (h : containsStr text "TBD" = true) :
    ∃ d, FSECReadinessAnalyzer.check_critical_ambiguity text =
      [{ category := "requirements", severity := "HIGH",
         title := "Critical Ambiguity", description := d,
         questions := ["What needs to be decided before we can estimate?"],
         actions :=
           ["Convert TBD/TODO into specific questions",
            "Assign owners to open questions"] }] := by
  have hsome : (findCtx "TBD".data text.data).isSome = true := findCtx_isSome _ _ h
  obtain ⟨m, hm⟩ := Option.isSome_iff_exists.mp hsome
  have hmem : quoteCtx m ∈ FSECReadinessAnalyzer.CRITICAL_VAGUE.filterMap (fun mk =>
      if containsStr text mk then (findCtx mk.data text.data).map quoteCtx else none) :=
    List.mem_filterMap.mpr ⟨"TBD", by simp [FSECReadinessAnalyzer.CRITICAL_VAGUE],
      by rw [if_pos h, hm]; rfl⟩
  have hBf : (FSECReadinessAnalyzer.CRITICAL_VAGUE.filterMap (fun mk =>
      if containsStr text mk then (findCtx mk.data text.data).map quoteCtx else none)).isEmpty
        = false := by
    rcases hx : FSECReadinessAnalyzer.CRITICAL_VAGUE.filterMap (fun mk =>
        if containsStr text mk then (findCtx mk.data text.data).map quoteCtx else none) with
      _ | ⟨a, l⟩
    · rw [hx] at hmem
      cases hmem
    · rfl
  simp only [FSECReadinessAnalyzer.check_critical_ambiguity, hBf,
    Bool.false_eq_true, if_false]
  exact ⟨_, rfl⟩

/-- Any gap emitted by the general vague-language detector is in the
analysis gap list. -/
theorem RA_mem_detect_gaps_vague (t : Ticket) (g : Gap)
    (hg : g ∈ ReadinessAnalyzer.check_vague_language (ReadinessAnalyzer.all_text t)) :
    g ∈ ReadinessAnalyzer.detect_gaps t := by
  unfold ReadinessAnalyzer.detect_gaps
  exact List.mem_append_left _ (List.mem_append_left _ (List.mem_append_left _
    (List.mem_append_left _ (List.mem_append_left _ (List.mem_append_right _ hg)))))

/-- Any gap emitted by the FSEC critical-ambiguity detector is in the
analysis gap list. -/
theorem FSEC_mem_detect_gaps_critical (t : Ticket) (g : Gap)
    (hg : g ∈ FSECReadinessAnalyzer.check_critical_ambiguity (FSECReadinessAnalyzer.all_text t)) :
    g ∈ FSECReadinessAnalyzer.detect_gaps t := by
  unfold FSECReadinessAnalyzer.detect_gaps
  exact List.mem_append_left _ (List.mem_append_left _ (List.mem_append_left _
    (List.mem_append_left _ (List.mem_append_right _ hg))))

/-- A HIGH requirements gap in the list caps the general requirements
score at 70 - 25 = 45. -/
theorem RA_req_le_of_high_gap (gaps : List Gap) (g : Gap) (hg : g ∈ gaps)
    (hc : g.category = "requirements") (hs : g.severity = "HIGH") :
    ReadinessAnalyzer.calculate_requirements_score gaps ≤ 45 := by
  have hmem : g ∈ gaps.filter (fun x => x.category == "requirements") :=
    List.mem_filter.mpr ⟨hg, by simp [hc]⟩
  have hpos : 0 < (gaps.filter (fun x => x.category == "requirements")).countP
      (fun x => x.severity == "HIGH") :=
    List.countP_pos_iff.mpr ⟨g, hmem, by simp [hs]⟩
  simp only [ReadinessAnalyzer.calculate_requirements_score]
  omega

/-- A HIGH requirements gap in the list caps the FSEC requirements
score at 40 - 15 = 25. -/
theorem FSEC_req_le_of_high_gap (d : String) (gaps : List Gap) (g : Gap) (hg : g ∈ gaps)
    (hc : g.category = "requirements") (hs : g.severity = "HIGH") :
    FSECReadinessAnalyzer.calculate_requirements_score d gaps ≤ 25 := by
  have hmem : g ∈ gaps.filter (fun x => x.category == "requirements") :=
    List.mem_filter.mpr ⟨hg, by simp [hc]⟩
  have hpos : 0 < (gaps.filter (fun x => x.category == "requirements")).countP
      (fun x => x.severity == "HIGH") :=
    List.countP_pos_iff.mpr ⟨g, hmem, by simp [hs]⟩
  simp only [FSECReadinessAnalyzer.calculate_requirements_score]
  omega

/-- Claim C7: for every ticket whose description contains the literal
substring `TBD`, both profiles emit a HIGH-severity requirements-category
ambiguity gap, and that gap costs 25 of the 70-point general
requirements ceiling and 15 of the 40-point FSEC ceiling. -/
theorem C7_tbd_ambiguity_gap : ∀ t : Ticket, containsStr t.description "TBD" = true →
    (∃ g ∈ (ReadinessAnalyzer.analyze t).gaps,
      g.category = "requirements" ∧ g.severity = "HIGH" ∧
      g.title = "Vague or Ambiguous Requirements") ∧
    (ReadinessAnalyzer.analyze t).requirements_score ≤ 70 - 25 ∧
    (∃ g ∈ (FSECReadinessAnalyzer.analyze t).gaps,
      g.category = "requirements" ∧ g.severity = "HIGH" ∧
      g.title = "Critical Ambiguity") ∧
    (FSECReadinessAnalyzer.analyze t).requirements_score ≤ 40 - 15 := by
  intro t ht
  obtain ⟨d1, hd1⟩ := check_vague_language_of_TBD _ (containsStr_all_text t _ ht)
  obtain ⟨d2, hd2⟩ := check_critical_ambiguity_of_TBD _ (containsStr_all_text_fsec t _ ht)
  have hmem1 : (⟨"requirements", "HIGH", "Vague or Ambiguous Requirements", d1,
      ["What are the specific requirements?",
       "Can we remove uncertainty and be more precise?",
       "What decisions need to be made?"],
      ["Convert vague statements to specific questions",
       "Assign questions to stakeholders for answers",
       "Update ticket with specific requirements"]⟩ : Gap) ∈
      ReadinessAnalyzer.detect_gaps t :=
    RA_mem_detect_gaps_vague t _ (by rw [hd1]; exact List.mem_singleton.mpr rfl)
  have hmem2 : (⟨"requirements", "HIGH", "Critical Ambiguity", d2,
      ["What needs to be decided before we can estimate?"],
      ["Convert TBD/TODO into specific questions",
       "Assign owners to open questions"]⟩ : Gap) ∈
      FSECReadinessAnalyzer.detect_gaps t :=
    FSEC_mem_detect_gaps_critical t _ (by rw [hd2]; exact List.mem_singleton.mpr rfl)
  refine ⟨⟨_, by rw [ReadinessAnalyzer.analyze_gaps]; exact hmem1, rfl, rfl, rfl⟩, ?_,
    ⟨_, by rw [FSECReadinessAnalyzer.fsec_analyze_gaps]; exact hmem2, rfl, rfl, rfl⟩, ?_⟩
  · rw [ReadinessAnalyzer.analyze_requirements_score]
    have := RA_req_le_of_high_gap _ _ hmem1 rfl rfl
    omega
  · rw [FSECReadinessAnalyzer.fsec_analyze_requirements_score]
    have := FSEC_req_le_of_high_gap t.description _ _ hmem2 rfl rfl
    omega

/-- Witness for C7 at the concrete snapshot `tTBD`. -/
theorem C7_tbd_ambiguity_gap_witness :
    containsStr tTBD.description "TBD" = true ∧
    ((∃ g ∈ (ReadinessAnalyzer.analyze tTBD).gaps,
        g.category = "requirements" ∧ g.severity = "HIGH" ∧
        g.title = "Vague or Ambiguous Requirements") ∧
      (ReadinessAnalyzer.analyze tTBD).requirements_score ≤ 70 - 25 ∧
      (∃ g ∈ (FSECReadinessAnalyzer.analyze tTBD).gaps,
        g.category = "requirements" ∧ g.severity = "HIGH" ∧
        g.title = "Critical Ambiguity") ∧
      (FSECReadinessAnalyzer.analyze tTBD).requirements_score ≤ 40 - 15) :=
  ⟨by decide, C7_tbd_ambiguity_gap tTBD (by decide)⟩

/-! ## Claim C5: the FSEC additive technical category -/

/-- Property that a gap is either not technical or has severity MEDIUM. -/
def techMedium (g : Gap) : Bool := g.category != "technical" || g.severity == "MEDIUM"

theorem check_problem_statement_techMedium (d : String) :
    (FSECReadinessAnalyzer.check_problem_statement d).all techMedium = true := by
  simp only [FSECReadinessAnalyzer.check_problem_statement]
  split <;> rfl

theorem check_critical_ambiguity_techMedium (text : String) :
    (FSECReadinessAnalyzer.check_critical_ambiguity text).all techMedium = true := by
  simp only [FSECReadinessAnalyzer.check_critical_ambiguity]
  split <;> rfl

theorem check_aws_context_techMedium (d ty : String) :
    (FSECReadinessAnalyzer.check_aws_context d ty).all techMedium = true := by
  simp only [FSECReadinessAnalyzer.check_aws_context]
  split
  · rfl
  · split <;> rfl

theorem check_implementation_clarity_techMedium (d : String) :
    (FSECReadinessAnalyzer.check_implementation_clarity d).all techMedium = true := by
  simp only [FSECReadinessAnalyzer.check_implementation_clarity]
  split <;> rfl

theorem check_references_techMedium (d : String) :
    (FSECReadinessAnalyzer.check_references d).all techMedium = true := by
  simp only [FSECReadinessAnalyzer.check_references]
  split <;> rfl

theorem check_security_context_techMedium (text : String) :
    (FSECReadinessAnalyzer.check_security_context text).all techMedium = true := by
  simp only [FSECReadinessAnalyzer.check_security_context]
  split <;> rfl

/-- Every technical-category gap an FSEC analysis produces has severity
MEDIUM. -/
theorem FSEC_tech_gaps_medium (t : Ticket) :
    (FSECReadinessAnalyzer.detect_gaps t).all techMedium = true := by
  unfold FSECReadinessAnalyzer.detect_gaps
  simp only [List.all_append, Bool.and_eq_true]
  exact ⟨⟨⟨⟨⟨check_problem_statement_techMedium _,
    check_critical_ambiguity_techMedium _⟩,
    check_aws_context_techMedium _ _⟩,
    check_implementation_clarity_techMedium _⟩,
    check_references_techMedium _⟩,
    check_security_context_techMedium _⟩

/-- When every technical gap is MEDIUM, the MEDIUM count inside the
technical filter is the full technical count. -/
theorem countP_tech_of_all_medium (l : List Gap) (h : l.all techMedium = true) :
    (l.filter (fun g => g.category == "technical")).countP
        (fun g => g.severity == "MEDIUM") =
      l.countP (fun g => g.category == "technical") := by
  induction l with
  | nil => rfl
  | cons a l ih =>
    simp only [List.all_cons, Bool.and_eq_true] at h
    by_cases hp : (a.category == "technical") = true
    · have hq : (a.severity == "MEDIUM") = true := by
        have h1 := h.1
        unfold techMedium at h1
        simp only [bne, hp, Bool.not_true, Bool.false_or] at h1
        exact h1
      simp [List.filter_cons, hp, List.countP_cons, hq, ih h.2]
    · have hp2 : (a.category == "technical") = false := by simpa using hp
      simp [List.filter_cons, hp2, List.countP_cons, ih h.2]

/-- The FSEC technical score in closed additive form, given that every
technical gap in the list is MEDIUM. -/
theorem FSEC_tech_score_formula (d : String) (links : List String) (gaps : List Gap)
    (h : gaps.all techMedium = true) :
    FSECReadinessAnalyzer.calculate_technical_score d links gaps =
      min 40 (max 0
        ((if FSECReadinessAnalyzer.AWS_KEYWORDS.any
            (fun kw => containsStr (pyLower d) kw) then (15 : Int) else 0) +
         (if FSECReadinessAnalyzer.IMPLEMENTATION_KEYWORDS.any
            (fun kw => containsStr (pyLower d) kw) then (15 : Int) else 0) +
         (if containsStr d "github.com" || containsStr d "slack.com" ||
            containsTicketRef d then (10 : Int) else 0) -
         5 * (gaps.countP (fun g => g.category == "technical") : Int))) := by
  simp only [FSECReadinessAnalyzer.calculate_technical_score]
  rw [countP_tech_of_all_medium gaps h]
  cases hA : FSECReadinessAnalyzer.AWS_KEYWORDS.any (fun kw => containsStr (pyLower d) kw) <;>
    cases hB : FSECReadinessAnalyzer.IMPLEMENTATION_KEYWORDS.any
        (fun kw => containsStr (pyLower d) kw) <;>
      cases hR : (containsStr d "github.com" || containsStr d "slack.com" ||
          containsTicketRef d) <;>
        simp [hA, hB, hR]

/-- Claim C5: for every ticket, the FSEC technical score is the
additive indicator sum (+15 for an AWS/infrastructure keyword in the
description, +15 for an implementation-action keyword, +10 for an
outbound reference), minus 5 per technical-category gap found (all of
which are MEDIUM), clamped to `[0, 40]`; with no indicator and no
technical gap the score is exactly 0. -/
theorem C5_additive_technical : ∀ t : Ticket,
    (FSECReadinessAnalyzer.analyze t).technical_score =
      min 40 (max 0
        ((if FSECReadinessAnalyzer.AWS_KEYWORDS.any
            (fun kw => containsStr (pyLower t.description) kw) then (15 : Int) else 0) +
         (if FSECReadinessAnalyzer.IMPLEMENTATION_KEYWORDS.any
            (fun kw => containsStr (pyLower t.description) kw) then (15 : Int) else 0) +
         (if containsStr t.description "github.com" || containsStr t.description "slack.com" ||
            containsTicketRef t.description then (10 : Int) else 0) -
         5 * ((FSECReadinessAnalyzer.analyze t).gaps.countP
            (fun g => g.category == "technical") : Int))) ∧
    (FSECReadinessAnalyzer.analyze t).gaps.all techMedium = true ∧
    ((FSECReadinessAnalyzer.AWS_KEYWORDS.any
        (fun kw => containsStr (pyLower t.description) kw)) = false →
      (FSECReadinessAnalyzer.IMPLEMENTATION_KEYWORDS.any
        (fun kw => containsStr (pyLower t.description) kw)) = false →
      (containsStr t.description "github.com" || containsStr t.description "slack.com" ||
        containsTicketRef t.description) = false →
      (FSECReadinessAnalyzer.analyze t).gaps.countP
        (fun g => g.category == "technical") = 0 →
      (FSECReadinessAnalyzer.analyze t).technical_score = 0) := by
  intro t
  have hall := FSEC_tech_gaps_medium t
  refine ⟨?_, ?_, ?_⟩
  · rw [FSECReadinessAnalyzer.fsec_analyze_technical_score, FSECReadinessAnalyzer.fsec_analyze_gaps]
    exact FSEC_tech_score_formula t.description t.issuelinks _ hall
  · rw [FSECReadinessAnalyzer.fsec_analyze_gaps]
    exact hall
  · intro hA hB hR hC
    rw [FSECReadinessAnalyzer.fsec_analyze_gaps] at hC
    rw [FSECReadinessAnalyzer.fsec_analyze_technical_score,
      FSEC_tech_score_formula t.description t.issuelinks _ hall, hC, hA, hB, hR]
    simp

/-- Witness for C5 at `tPlain`: no indicator, no technical gap, score 0. -/
theorem C5_additive_technical_witness :
    ((FSECReadinessAnalyzer.AWS_KEYWORDS.any
        (fun kw => containsStr (pyLower tPlain.description) kw)) = false) ∧
    ((FSECReadinessAnalyzer.IMPLEMENTATION_KEYWORDS.any
        (fun kw => containsStr (pyLower tPlain.description) kw)) = false) ∧
    ((containsStr tPlain.description "github.com" ||
      containsStr tPlain.description "slack.com" ||
      containsTicketRef tPlain.description) = false) ∧
    ((FSECReadinessAnalyzer.analyze tPlain).gaps.countP
        (fun g => g.category == "technical") = 0) ∧
    (FSECReadinessAnalyzer.analyze tPlain).technical_score = 0 :=
  ⟨by decide, by decide, by decide, by decide,
   (C5_additive_technical tPlain).2.2 (by decide) (by decide) (by decide) (by decide)⟩

/-! ## Claim C10: the FSEC testing score -/

/-- Claim C10: the FSEC testing score is exactly 5 when some test
keyword occurs in the combined ticket text and exactly 3 otherwise —
never 0 — and is a function of the text only, not of the gap list. -/
theorem C10_fsec_testing_score : ∀ t : Ticket,
    (FSECReadinessAnalyzer.analyze t).testing_score =
      (if FSECReadinessAnalyzer.TEST_KEYWORDS.any
          (fun kw => containsStr (pyLower (FSECReadinessAnalyzer.all_text t)) kw)
        then (5 : Int) else 3) ∧
    ((FSECReadinessAnalyzer.analyze t).testing_score = 3 ∨
      (FSECReadinessAnalyzer.analyze t).testing_score = 5) := by
  intro t
  rw [FSECReadinessAnalyzer.fsec_analyze_testing_score]
  constructor
  · simp only [FSECReadinessAnalyzer.calculate_testing_score,
      FSECReadinessAnalyzer.TEST_KEYWORDS, List.any_cons, List.any_nil]
    have hOr : ∀ a b c d : Bool, ((a || (b || (c || (d || false)))) || b) =
        (a || (b || (c || (d || false)))) := by decide
    simp only [hOr]
  · simp only [FSECReadinessAnalyzer.calculate_testing_score]
    split
    · right
      rfl
    · left
      rfl
